import Mathlib

/-!
# Verification of the openclaw_exporter collectors

Shallow embedding of the Go sources of `JetSquirrel/openclaw_exporter`:

* `collector` package, snapshot-based workspace collector (the canonical,
  latest revision: `OpenclawCollector` with `refreshSnapshot` and the
  background scan loop);
* the session collector (`SessionCollector` with `Collect`,
  `collectAgentSessions`, `collectSessionFileMetrics`);
* the historical direct-collect revision of `collectAgentsMetrics` and
  `countMarkdownSections` (which also consulted `AGENTS.md`), embedded
  separately under a `Legacy` suffix.

Filesystem interaction is modelled as a record of query functions
(`stat`, `readDir`, `readFile`, `glob`) giving, for each path string the
code constructs, the result the operating system would return.  Real-time
aspects (the scan timer, the per-cycle timeout context) are outside a
shallow embedding; the timeout context is modelled as never expiring, so
sub-scan errors arise exactly from the filesystem results.  Go `float64`
metric values are modelled as exact rationals (the identities proved do
not depend on rounding), `int`/`int64` as `Int`, counts as `Nat`.
Go map iteration (over the session registry) is modelled as iteration
over an ordered association list; the properties checked are insensitive
to that order.
-/

namespace OpenclawExporter

/-- Result of `os.Stat` on a path: found with size and mtime (seconds),
the `os.IsNotExist` case, or any other error. -/
inductive StatResult where
  | found (size mtime : Int)
  | notFound
  | ioError
deriving DecidableEq

/-- One entry of `os.ReadDir`: a name and whether it is a directory. -/
structure DirEntry where
  name : String
  isDir : Bool
deriving DecidableEq

/-- Result of `os.ReadDir` on a path. -/
inductive ReadDirResult where
  | ok (entries : List DirEntry)
  | notFound
  | ioError
deriving DecidableEq

/-- Result of opening a text file and scanning its lines
(`os.Open` + `bufio.Scanner`): the list of lines, the not-exist error, or
any other read failure (including a mid-scan `scanner.Err()`, after which
the Go code discards the count and returns the error). -/
inductive ReadFileResult where
  | ok (lines : List String)
  | notFound
  | ioError
deriving DecidableEq

/-- Result of `filepath.Glob`: the matched paths, or `ErrBadPattern`. -/
inductive GlobResult where
  | ok (paths : List String)
  | badPattern
deriving DecidableEq

/-- The error taxonomy visible to the collectors. -/
inductive FsErr where
  | notFound
  | ioError
deriving DecidableEq

instance {ε α : Type} [DecidableEq ε] [DecidableEq α] : DecidableEq (Except ε α) := fun x y =>
  match x, y with
  | .ok a, .ok b =>
    if h : a = b then .isTrue (congrArg Except.ok h)
    else .isFalse (fun hc => h (Except.ok.inj hc))
  | .error a, .error b =>
    if h : a = b then .isTrue (congrArg Except.error h)
    else .isFalse (fun hc => h (Except.error.inj hc))
  | .ok _, .error _ => .isFalse (fun hc => Except.noConfusion hc)
  | .error _, .ok _ => .isFalse (fun hc => Except.noConfusion hc)

/-- The whitespace set of Go's `strings.TrimSpace` (restricted to the
ASCII space characters; no non-ASCII whitespace occurs in the inputs
considered here). -/
def isSpaceChar (c : Char) : Bool :=
  c == ' ' || c == '\t' || c == '\n' || c == '\x0b' || c == '\x0c' || c == '\r'

/-- `strings.TrimSpace`: strip leading and trailing whitespace. -/
def strTrim (s : String) : String :=
  ⟨((s.data.dropWhile isSpaceChar).reverse.dropWhile isSpaceChar).reverse⟩

/-- `strings.HasPrefix`. -/
def strStartsWith (s p : String) : Bool := p.data.isPrefixOf s.data

/-- `strings.HasSuffix`. -/
def strEndsWith (s p : String) : Bool := p.data.isSuffixOf s.data

/-- `s[n:]` on a string. -/
def strDrop (s : String) (n : Nat) : String := ⟨s.data.drop n⟩

/-- `strings.TrimLeft` with a cutset given as a character test. -/
def strDropWhile (s : String) (p : Char → Bool) : String := ⟨s.data.dropWhile p⟩

/-- `strings.ToLower` (ASCII case folding; the file names involved are
ASCII). -/
def strToLower (s : String) : String := ⟨s.data.map Char.toLower⟩

/-- Model of `filepath.Join` for the fixed single-component names the
code joins (no separators or dot segments occur in them). -/
def joinPath (a b : String) : String := a ++ "/" ++ b

/-- The filesystem and environment as observed by the workspace
collector: results of the individual system calls, keyed by the path
strings the code builds. -/
structure WorkspaceFs where
  stat : String → StatResult
  readDir : String → ReadDirResult
  readFile : String → ReadFileResult
  glob : String → GlobResult

/-- Static configuration of the workspace collector: the workspace
directory (`-openclaw.dir`), the `HOME` environment variable (empty when
unset), the `OPENCLAW_SKILLS_DIR` override (empty when unset), and
whether `runtime.GOOS == "darwin"`. -/
structure ClawConfig where
  dir : String
  home : String
  skillsDirEnv : String
  isDarwin : Bool

/-- Line test of the canonical `countMarkdownSections` (snapshot-based
revision): the line is trimmed, must start with `##`, and the remainder
after the first two characters must be non-empty once leading spaces and
tabs are stripped. -/
def isH2Line (line : String) : Bool :=
  let t := strTrim line
  strStartsWith t "##" && (strDropWhile (strDrop t 2) (fun c => c == ' ' || c == '\t') != "")

/-- The scanner loop of `countMarkdownSections`, accumulating the count. -/
def countLoop : List String → Nat → Nat
  | [], n => n
  | l :: ls, n => countLoop ls (if isH2Line l then n + 1 else n)

/-- `countMarkdownSections` (canonical revision): open the file, count
section heading lines; `NotFound` when the path does not exist, `IOError`
for any other read failure. -/
def countMarkdownSections (fs : WorkspaceFs) (path : String) : Except FsErr Nat :=
  match fs.readFile path with
  | .notFound => .error .notFound
  | .ioError => .error .ioError
  | .ok lines => .ok (countLoop lines 0)

/-- Line test of the historical revision of `countMarkdownSections`
(direct-collect collector): trimmed line must start with `"## "`. -/
def isH2LineLegacy (line : String) : Bool :=
  strStartsWith (strTrim line) "## "

/-- Scanner loop of the historical `countMarkdownSections`. -/
def countLoopLegacy : List String → Nat → Nat
  | [], n => n
  | l :: ls, n => countLoopLegacy ls (if isH2LineLegacy l then n + 1 else n)

/-- Historical revision of `countMarkdownSections`. -/
def countMarkdownSectionsLegacy (fs : WorkspaceFs) (path : String) : Except FsErr Nat :=
  match fs.readFile path with
  | .notFound => .error .notFound
  | .ioError => .error .ioError
  | .ok lines => .ok (countLoopLegacy lines 0)

/-- One recorded file fact: name, size in bytes, mtime in unix seconds. -/
structure fileStat where
  name : String
  size : Int
  mtime : Int
deriving DecidableEq

/-- The fixed ordered file list of `collectFileMetrics` (canonical and
legacy names, in source order). -/
def coreFiles : List String :=
  ["AGENTS.md", "SOUL.md", "TOOLS.md", "IDENTITY.md",
   "USER.md", "HEARTBEAT.md", "BOOTSTRAP.md", "BOOT.md", "MEMORY.md",
   "soul.md", "skill.md", "agent.md"]

/-- The loop of `collectFileMetrics`: walk the file list carrying the
`reported` set (lower-cased base names already recorded) and the stats
appended so far; a stat failure other than not-exist aborts the sub-scan,
keeping the entries appended before the failure. -/
def fileLoop (cfg : ClawConfig) (fs : WorkspaceFs) :
    List String → List String → List fileStat → List fileStat × Bool
  | [], _, acc => (acc, false)
  | f :: rest, reported, acc =>
    if reported.contains (strToLower f) then fileLoop cfg fs rest reported acc
    else
      match fs.stat (joinPath cfg.dir f) with
      | .notFound => fileLoop cfg fs rest reported acc
      | .ioError => (acc, true)
      | .found s m => fileLoop cfg fs rest (strToLower f :: reported) (acc ++ [⟨f, s, m⟩])

/-- File-facts sub-scan; the `Bool` is the error flag of the sub-scan. -/
def collectFileMetrics (cfg : ClawConfig) (fs : WorkspaceFs) : List fileStat × Bool :=
  fileLoop cfg fs coreFiles [] []

/-- The fixed file list of `collectWorkspaceFileMetrics`. -/
def workspaceFilesList : List String :=
  ["AGENTS.md", "SOUL.md", "TOOLS.md", "IDENTITY.md",
   "USER.md", "HEARTBEAT.md", "BOOTSTRAP.md", "MEMORY.md"]

/-- Loop of `collectWorkspaceFileMetrics`: the `workspaceExists` map is
modelled as an association list in insertion order (keys are distinct). -/
def wsExistsLoop (cfg : ClawConfig) (fs : WorkspaceFs) :
    List String → List (String × Nat) → List (String × Nat) × Bool
  | [], acc => (acc, false)
  | f :: rest, acc =>
    match fs.stat (joinPath cfg.dir f) with
    | .found _ _ => wsExistsLoop cfg fs rest (acc ++ [(f, 1)])
    | .notFound => wsExistsLoop cfg fs rest (acc ++ [(f, 0)])
    | .ioError => (acc, true)

/-- Workspace-existence sub-scan. -/
def collectWorkspaceFileMetrics (cfg : ClawConfig) (fs : WorkspaceFs) :
    List (String × Nat) × Bool :=
  wsExistsLoop cfg fs workspaceFilesList []

/-- Sum of sizes of the glob matches, skipping paths whose stat fails. -/
def sumSizes (fs : WorkspaceFs) : List String → Int
  | [] => 0
  | p :: ps =>
    (match fs.stat p with
     | .found s _ => s
     | _ => 0) + sumSizes fs ps

/-- Context-length sub-scan: glob `context*.md` under the workspace dir. -/
def collectContextMetrics (cfg : ClawConfig) (fs : WorkspaceFs) : Int × Bool :=
  match fs.glob (joinPath cfg.dir "context*.md") with
  | .badPattern => (0, true)
  | .ok paths => (sumSizes fs paths, false)

/-- `filepath.Ext(name) == ".md"` is equivalent to `name` ending in
`".md"` (the extension runs from the last dot, and `"md"` has none). -/
def isMdFile (e : DirEntry) : Bool := !e.isDir && strEndsWith e.name ".md"

/-- Memory-count sub-scan: count `.md` non-directory entries of
`memory/`; a missing directory is count 0, not an error. -/
def collectMemoryMetrics (cfg : ClawConfig) (fs : WorkspaceFs) : Nat × Bool :=
  match fs.readDir (joinPath cfg.dir "memory") with
  | .notFound => (0, false)
  | .ioError => (0, true)
  | .ok entries => ((entries.filter isMdFile).length, false)

/-- `os.Stat` succeeded on the path. -/
def statOk (fs : WorkspaceFs) (p : String) : Bool :=
  match fs.stat p with
  | .found _ _ => true
  | _ => false

/-- Default system skills directory probed on darwin. -/
def defaultSystemSkillsDir : String := "/opt/homebrew/lib/node_modules/openclaw/skills"

/-- `resolveSystemSkillsDir`: environment override, else the darwin
default when it exists, else empty. -/
def resolveSystemSkillsDir (cfg : ClawConfig) (fs : WorkspaceFs) : String :=
  if cfg.skillsDirEnv != "" then cfg.skillsDirEnv
  else if cfg.isDarwin && statOk fs defaultSystemSkillsDir then defaultSystemSkillsDir
  else ""

/-- Count the subdirectories of `dir` (given its entries) containing a
`SKILL.md` whose stat succeeds. -/
def countSkillDirs (fs : WorkspaceFs) (dir : String) (entries : List DirEntry) : Nat :=
  (entries.filter
    (fun e => e.isDir && statOk fs (joinPath (joinPath dir e.name) "SKILL.md"))).length

/-- One candidate skills directory: not-exist contributes 0. -/
def dirSkillCount (fs : WorkspaceFs) (dir : String) (r : ReadDirResult) : Nat :=
  match r with
  | .ok entries => countSkillDirs fs dir entries
  | _ => 0

/-- The user skills directory `HOME/.openclaw/skills`. -/
def userSkillsDir (cfg : ClawConfig) : String :=
  joinPath (joinPath cfg.home ".openclaw") "skills"

/-- Tail of the skills sub-scan: the system skills directory. -/
def skillsSystemPart (cfg : ClawConfig) (fs : WorkspaceFs) (acc : Nat) : Nat × Bool :=
  let sys := resolveSystemSkillsDir cfg fs
  if sys != "" then
    match fs.readDir sys with
    | .ioError => (0, true)
    | r => (acc + dirSkillCount fs sys r, false)
  else (acc, false)

/-- Middle of the skills sub-scan: the user skills directory, consulted
only when `HOME` is set. -/
def skillsUserPart (cfg : ClawConfig) (fs : WorkspaceFs) (acc : Nat) : Nat × Bool :=
  if cfg.home != "" then
    match fs.readDir (userSkillsDir cfg) with
    | .ioError => (0, true)
    | r => skillsSystemPart cfg fs (acc + dirSkillCount fs (userSkillsDir cfg) r)
  else skillsSystemPart cfg fs acc

/-- Skills sub-scan: legacy `skill.md` section count (any error from the
counter is ignored and contributes 0), then one count per skill
subdirectory in the workspace, user and system skills directories.  On a
read failure of one of the directories the Go code returns the error
before `snapshot.skillsCount` is assigned, so the recorded count is 0. -/
def collectSkillsMetrics (cfg : ClawConfig) (fs : WorkspaceFs) : Nat × Bool :=
  let legacy :=
    match countMarkdownSections fs (joinPath cfg.dir "skill.md") with
    | .ok n => n
    | .error _ => 0
  match fs.readDir (joinPath cfg.dir "skills") with
  | .ioError => (0, true)
  | r => skillsUserPart cfg fs (legacy + dirSkillCount fs (joinPath cfg.dir "skills") r)

/-- Agents sub-scan (canonical revision): only the legacy `agent.md`
section count; any error from the counter is ignored and contributes 0;
`AGENTS.md` is deliberately not consulted.  This sub-scan never errors. -/
def collectAgentsMetrics (cfg : ClawConfig) (fs : WorkspaceFs) : Nat × Bool :=
  ((match countMarkdownSections fs (joinPath cfg.dir "agent.md") with
    | .ok n => n
    | .error _ => 0), false)

/-- Agents sub-scan of the historical direct-collect revision: counts
`agent.md` and additionally `AGENTS.md`, with the legacy line test. -/
def collectAgentsMetricsLegacy (cfg : ClawConfig) (fs : WorkspaceFs) : Nat × Bool :=
  let a :=
    match countMarkdownSectionsLegacy fs (joinPath cfg.dir "agent.md") with
    | .ok n => n
    | .error _ => 0
  let b :=
    match countMarkdownSectionsLegacy fs (joinPath cfg.dir "AGENTS.md") with
    | .ok n => n
    | .error _ => 0
  (a + b, false)

/-- The published snapshot (the `scrapeSnapshot` struct of the source). -/
structure scrapeSnapshot where
  fileStats : List fileStat
  workspaceExists : List (String × Nat)
  contextLength : Int
  skillsCount : Nat
  agentsCount : Nat
  memoryFiles : Nat
  scrapeSuccess : Nat
deriving DecidableEq

/-- The fields of `OpenclawCollector` the metrics path reads under the
lock: the snapshot plus scan metadata (`lastDuration` in seconds and the
monotonic `scanErrorsTotal`). -/
structure CollectorState where
  snapshot : scrapeSnapshot
  lastDuration : Rat
  scanErrorsTotal : Nat
deriving DecidableEq

/-- One cycle of `refreshSnapshot`: run the six sub-scans, build a fresh
snapshot, set `scrapeSuccess` from the error count and publish, adding
the cycle's errors to the monotonic counter.  The measured wall-time `d`
is an external input. -/
def refreshSnapshot (cfg : ClawConfig) (fs : WorkspaceFs) (d : Rat)
    (s : CollectorState) : CollectorState :=
  let r1 := collectFileMetrics cfg fs
  let r2 := collectWorkspaceFileMetrics cfg fs
  let r3 := collectContextMetrics cfg fs
  let r4 := collectMemoryMetrics cfg fs
  let r5 := collectSkillsMetrics cfg fs
  let r6 := collectAgentsMetrics cfg fs
  let errorCount := List.count true [r1.2, r2.2, r3.2, r4.2, r5.2, r6.2]
  let snap : scrapeSnapshot :=
    { fileStats := r1.1
      workspaceExists := r2.1
      contextLength := r3.1
      memoryFiles := r4.1
      skillsCount := r5.1
      agentsCount := r6.1
      scrapeSuccess := if errorCount = 0 then 1 else 0 }
  { snapshot := snap
    lastDuration := d
    scanErrorsTotal :=
      if errorCount > 0 then s.scanErrorsTotal + errorCount else s.scanErrorsTotal }

/-- The decoded `usage` object of a `message` event.  `cost.total` is a
Go `float64`; it is modelled as an exact rational, which is sound for
the identities proved here (they perform the same additions on both
sides). -/
structure usageJSON where
  input : Int
  output : Int
  cacheRead : Int
  totalTokens : Int
  cost : Option Rat
deriving DecidableEq

/-- The decoded `message` object of an event. -/
structure messageJSON where
  provider : String
  model : String
  usage : Option usageJSON
deriving DecidableEq

/-- A decoded session event (`sessionEvent` in the source); absent JSON
fields decode to Go zero values, i.e. empty strings / `none`. -/
structure sessionEvent where
  type : String
  id : String
  provider : String
  modelId : String
  thinkingLevel : String
  message : Option messageJSON
deriving DecidableEq

/-- One line of the session log, abstracted to the outcome of the
decode boundary the Go loop checks: a zero-length line, a line on which
`json.Unmarshal` fails, or a decoded event. -/
inductive LogLine where
  | empty
  | corrupt
  | event (e : sessionEvent)
deriving DecidableEq

/-- The running accumulator of `collectSessionFileMetrics`. -/
structure sessionAcc where
  messageCount : Nat
  totalInputTokens : Int
  totalOutputTokens : Int
  totalCacheRead : Int
  totalCost : Rat
  currentProvider : String
  currentModel : String
  thinkingLevelNum : Nat
deriving DecidableEq

/-- Zero-initialised accumulator. -/
def initAcc : sessionAcc :=
  { messageCount := 0, totalInputTokens := 0, totalOutputTokens := 0
    totalCacheRead := 0, totalCost := 0, currentProvider := ""
    currentModel := "", thinkingLevelNum := 0 }

/-- Effect of a `message` event on the accumulator. -/
def applyMessage (acc : sessionAcc) (e : sessionEvent) : sessionAcc :=
  let acc := { acc with messageCount := acc.messageCount + 1 }
  match e.message with
  | none => acc
  | some m =>
    let acc := if m.model != "" then { acc with currentModel := m.model } else acc
    let acc := if m.provider != "" then { acc with currentProvider := m.provider } else acc
    match m.usage with
    | none => acc
    | some u =>
      let acc :=
        { acc with
          totalInputTokens := acc.totalInputTokens + u.input
          totalOutputTokens := acc.totalOutputTokens + u.output
          totalCacheRead := acc.totalCacheRead + u.cacheRead }
      match u.cost with
      | none => acc
      | some c => { acc with totalCost := acc.totalCost + c }

/-- Effect of one decoded event on the accumulator (the `switch` on
`event.Type`; unrecognized types and thinking-level names change
nothing). -/
def applyEvent (acc : sessionAcc) (e : sessionEvent) : sessionAcc :=
  match e.type with
  | "message" => applyMessage acc e
  | "model_change" =>
    let acc := if e.modelId != "" then { acc with currentModel := e.modelId } else acc
    if e.provider != "" then { acc with currentProvider := e.provider } else acc
  | "thinking_level_change" =>
    match e.thinkingLevel with
    | "off" => { acc with thinkingLevelNum := 0 }
    | "low" => { acc with thinkingLevelNum := 1 }
    | "medium" => { acc with thinkingLevelNum := 2 }
    | "high" => { acc with thinkingLevelNum := 3 }
    | _ => acc
  | _ => acc

/-- One iteration of the scanner loop: empty and undecodable lines are
skipped silently, decoded events are applied. -/
def processLine (acc : sessionAcc) (l : LogLine) : sessionAcc :=
  match l with
  | .empty => acc
  | .corrupt => acc
  | .event e => applyEvent acc e

/-- The whole scanner loop of `collectSessionFileMetrics`. -/
def foldSession (lines : List LogLine) : sessionAcc :=
  lines.foldl processLine initAcc

/-- One exported metric sample: metric name, label values in the order
of the metric's label names, and the sample value. -/
structure Metric where
  name : String
  labels : List String
  value : Rat
deriving DecidableEq

/-- The metrics reported at the end of `collectSessionFileMetrics`, in
emission order.  The total-tokens value is computed there as
`input + output + cacheRead`. -/
def emitSessionFileMetrics (agent sid : String) (acc : sessionAcc) : List Metric :=
  [⟨"openclaw_session_messages_total", [agent, sid], (acc.messageCount : Rat)⟩,
   ⟨"openclaw_session_tokens_input_total", [agent, sid], (acc.totalInputTokens : Rat)⟩,
   ⟨"openclaw_session_tokens_output_total", [agent, sid], (acc.totalOutputTokens : Rat)⟩,
   ⟨"openclaw_session_tokens_cache_read_total", [agent, sid], (acc.totalCacheRead : Rat)⟩,
   ⟨"openclaw_session_tokens_total", [agent, sid],
      ((acc.totalInputTokens + acc.totalOutputTokens + acc.totalCacheRead : Int) : Rat)⟩,
   ⟨"openclaw_session_cost_total", [agent, sid], acc.totalCost⟩]
  ++ (if acc.currentModel != "" then
        [⟨"openclaw_model_info",
          [agent, sid, acc.currentProvider, acc.currentModel], 1⟩]
      else [])
  ++ [⟨"openclaw_thinking_level", [agent, sid], (acc.thinkingLevelNum : Rat)⟩]

/-- One entry of `sessions.json`. -/
structure SessionEntry where
  sessionId : String
  updatedAt : Int
  sessionFile : String
  compactionCount : Int
deriving DecidableEq

/-- Outcome of reading and decoding an agent's `sessions.json`:
`os.ReadFile` failure, `json.Unmarshal` failure, or the decoded
registry.  Go map iteration order is unspecified; the registry is
modelled as an ordered association list and the properties proved are
insensitive to the order. -/
inductive RegistryResult where
  | unreadable
  | malformed
  | ok (entries : List (String × SessionEntry))
deriving DecidableEq

/-- The filesystem as observed by the session collector: the agents
directory listing, per-agent stat of `agents/<a>/sessions/sessions.json`,
per-agent registry decode outcome, and per-path session log contents
(`none` models an `os.Open` failure). -/
structure SessionFs where
  agentsDir : ReadDirResult
  sessionsStat : String → Bool
  registry : String → RegistryResult
  logFile : String → Option (List LogLine)

/-- `collectSessionFileMetrics`: open the session file (failure emits
nothing), fold the log, report the metrics. -/
def collectSessionFileMetrics (fs : SessionFs) (agent sid file : String) : List Metric :=
  match fs.logFile file with
  | none => []
  | some lines => emitSessionFileMetrics agent sid (foldSession lines)

/-- Metrics emitted for one registry entry: only keys with the
`"agent:"` prefix and a non-empty `sessionId` are live; the session file
is parsed only when its path is non-empty. -/
def emitRegistryEntry (fs : SessionFs) (agent : String)
    (p : String × SessionEntry) : List Metric :=
  if strStartsWith p.1 "agent:" && p.2.sessionId != "" then
    [⟨"openclaw_session_active", [agent, p.2.sessionId], 1⟩,
     ⟨"openclaw_session_updated_timestamp", [agent, p.2.sessionId],
        ((p.2.updatedAt.tdiv 1000 : Int) : Rat)⟩]
    ++ (if p.2.sessionFile != "" then
          collectSessionFileMetrics fs agent p.2.sessionId p.2.sessionFile
        else [])
  else []

/-- `collectAgentSessions`: an unreadable or malformed registry logs and
returns, emitting nothing for the agent; otherwise every live entry is
processed and one scrape-success flag of value 1 is emitted last. -/
def collectAgentSessions (fs : SessionFs) (agent : String) : List Metric :=
  match fs.registry agent with
  | .unreadable => []
  | .malformed => []
  | .ok entries =>
    entries.flatMap (emitRegistryEntry fs agent)
    ++ [⟨"openclaw_session_scrape_success", [agent], 1⟩]

/-- `SessionCollector.Collect`: a failure to read the agents directory
emits the single scrape-success flag 0 under the label `"unknown"` and
returns; otherwise each subdirectory whose registry file stats
successfully is processed. -/
def sessionCollect (fs : SessionFs) : List Metric :=
  match fs.agentsDir with
  | .ok entries =>
    entries.flatMap (fun e =>
      if e.isDir && fs.sessionsStat e.name then collectAgentSessions fs e.name else [])
  | _ => [⟨"openclaw_session_scrape_success", ["unknown"], 0⟩]

/-- The initial collector state of `NewOpenclawCollector`: empty
snapshot with `scrapeSuccess = 0`, before the first refresh. -/
def initialCollectorState : CollectorState :=
  { snapshot :=
      { fileStats := [], workspaceExists := [], contextLength := 0
        skillsCount := 0, agentsCount := 0, memoryFiles := 0, scrapeSuccess := 0 }
    lastDuration := 0
    scanErrorsTotal := 0 }

/-- Replace the `readFile` view of a filesystem, leaving `stat`,
`readDir` and `glob` untouched. -/
def setReadFile (fs : WorkspaceFs) (g : String → ReadFileResult) : WorkspaceFs :=
  { fs with readFile := g }

/-- Modelled from the spec's words (the claim's reading, to be compared
with the source's `isH2Line`): the trimmed line is a level-2 heading —
the `##` marker not followed by a third `#` — followed by non-empty
content. -/
def isLevel2HeadingClaim (line : String) : Bool :=
  let t := strTrim line
  strStartsWith t "##" && !(strStartsWith (strDrop t 2) "#")
    && (strDropWhile (strDrop t 2) (fun c => c == ' ' || c == '\t') != "")

/-- A workspace configuration with workspace dir `w`, `HOME` unset, no
skills-dir override, not darwin. -/
def cfgW : ClawConfig := { dir := "w", home := "", skillsDirEnv := "", isDarwin := false }

/-- A filesystem where nothing exists. -/
def emptyFs : WorkspaceFs :=
  { stat := fun _ => .notFound
    readDir := fun _ => .notFound
    readFile := fun _ => .notFound
    glob := fun _ => .ok [] }

/-- Workspace containing an `AGENTS.md` with exactly two level-2
headings and no legacy `agent.md`. -/
def fsAgentsOnly : WorkspaceFs :=
  { emptyFs with
    readFile := fun p =>
      if p = joinPath "w" "AGENTS.md" then .ok ["## alpha", "## beta"] else .notFound }

/-- Workspace whose every file read fails with a non-not-exist error. -/
def fsReadErr : WorkspaceFs :=
  { emptyFs with readFile := fun _ => .ioError }

/-- Workspace containing a markdown file whose single line is a level-3
heading. -/
def fsH3 : WorkspaceFs :=
  { emptyFs with readFile := fun _ => .ok ["### x"] }

/-- Workspace where every stat fails with a non-not-exist error. -/
def fsStatErr : WorkspaceFs :=
  { emptyFs with stat := fun _ => .ioError }

/-- Workspace containing both `SOUL.md` and `soul.md` (and nothing
else). -/
def fsBothSouls : WorkspaceFs :=
  { emptyFs with
    stat := fun p =>
      if p = joinPath "w" "SOUL.md" then .found 36 100
      else if p = joinPath "w" "soul.md" then .found 10 200
      else .notFound }

/-- A `message` event carrying usage `{input := i, output := o,
cacheRead := c}` and no cost or model fields. -/
def msgEventUsage (i o c : Int) : sessionEvent :=
  { type := "message", id := "", provider := "", modelId := "", thinkingLevel := ""
    message := some
      { provider := "", model := ""
        usage := some
          { input := i, output := o, cacheRead := c, totalTokens := 0, cost := none } } }

/-- The spec scenario's log: three `message` events with usage
`{input:10, output:5, cacheRead:0}` each. -/
def scenarioLog : List LogLine :=
  [.event (msgEventUsage 10 5 0), .event (msgEventUsage 10 5 0), .event (msgEventUsage 10 5 0)]

/-- First sample of a given metric name, if emitted. -/
def metricValue (ms : List Metric) (n : String) : Option Rat :=
  (ms.find? (fun m => m.name == n)).map (fun m => m.value)

/-- The session scrape-success flag carrying exactly the agent label
`a`. -/
def isScrapeFlagFor (a : String) (m : Metric) : Bool :=
  m.name == "openclaw_session_scrape_success" && m.labels == [a]

/-- Session filesystem: one agent directory `a` whose registry file
exists but cannot be read. -/
def sfsUnreadable : SessionFs :=
  { agentsDir := .ok [{ name := "a", isDir := true }]
    sessionsStat := fun _ => true
    registry := fun _ => .unreadable
    logFile := fun _ => none }

/-- Session filesystem: one agent directory `a` with an empty, readable
registry. -/
def sfsEmptyRegistry : SessionFs :=
  { agentsDir := .ok [{ name := "a", isDir := true }]
    sessionsStat := fun _ => true
    registry := fun _ => .ok []
    logFile := fun _ => none }

/-- Session filesystem: a readable agents directory containing an agent
directory literally named `unknown`, with an empty readable registry. -/
def sfsNamedUnknown : SessionFs :=
  { agentsDir := .ok [{ name := "unknown", isDir := true }]
    sessionsStat := fun _ => true
    registry := fun _ => .ok []
    logFile := fun _ => none }

/-- Session filesystem whose agents directory cannot be read. -/
def sfsNoAgentsDir : SessionFs :=
  { agentsDir := .ioError
    sessionsStat := fun _ => false
    registry := fun _ => .unreadable
    logFile := fun _ => none }

/-- The scanner loop of the section counter counts exactly the lines
satisfying the line test. -/
theorem countLoop_eq_filter (ls : List String) (n : Nat) :
    countLoop ls n = n + (ls.filter isH2Line).length := by
  induction ls generalizing n with
  | nil => simp [countLoop]
  | cons l ls ih =>
    cases h : isH2Line l <;>
      simp [countLoop, h, ih, List.filter_cons] <;> omega

/-- C9 (amended): for every readable file, the Markdown Section Counter
returns exactly the number of lines whose trimmed form begins with `##`
and whose remainder after those two characters is non-empty once leading
spaces and tabs are stripped — this includes deeper headings such as
`###`, which also begin with `##`. -/
theorem countMarkdownSections_counts_hash_prefix (fs : WorkspaceFs) (p : String)
    (lines : List String) (h : fs.readFile p = .ok lines) :
    countMarkdownSections fs p =
      .ok ((lines.filter (fun l =>
        strStartsWith (strTrim l) "##" &&
          (strDropWhile (strDrop (strTrim l) 2) (fun c => c == ' ' || c == '\t') != ""))).length) := by
  simp only [countMarkdownSections, h]
  rw [show (fun l => strStartsWith (strTrim l) "##" &&
      (strDropWhile (strDrop (strTrim l) 2) (fun c => c == ' ' || c == '\t') != "")) = isH2Line
    from rfl]
  simp [countLoop_eq_filter]

/-- C9 witness: the characterization applied to a concrete one-line
file. -/
theorem countMarkdownSections_counts_hash_prefix_witness :
    countMarkdownSections fsH3 "w/x.md" =
      .ok (((["### x"]).filter (fun l =>
        strStartsWith (strTrim l) "##" &&
          (strDropWhile (strDrop (strTrim l) 2) (fun c => c == ' ' || c == '\t') != ""))).length) :=
  countMarkdownSections_counts_hash_prefix fsH3 "w/x.md" ["### x"] rfl

/-- C9 counterexample: a file whose only line is the level-3 heading
`### x` is counted as one section by the code, yet it contains no
level-2 heading line in the claim's sense, so the count claimed
(`exactly the number of level-2 heading lines`) fails. -/
theorem countMarkdownSections_counts_level3_heading :
    countMarkdownSections fsH3 "w/x.md" = .ok 1
    ∧ ["### x"].filter isLevel2HeadingClaim = [] := by decide

/-- C2 counterexample: with `AGENTS.md` holding exactly two level-2
headings and no `agent.md`, the agents sub-scan of the canonical
collector yields `agentsCount = 0`, not 2. -/
theorem agentsCount_zero_for_AGENTS_only :
    fsAgentsOnly.readFile (joinPath cfgW.dir "AGENTS.md") = .ok ["## alpha", "## beta"]
    ∧ countLoop ["## alpha", "## beta"] 0 = 2
    ∧ fsAgentsOnly.readFile (joinPath cfgW.dir "agent.md") = .notFound
    ∧ (collectAgentsMetrics cfgW fsAgentsOnly).1 = 0 := by decide

/-- C2 (amended): when the workspace has an `AGENTS.md` (with any
contents, e.g. two level-2 headings) and no legacy `agent.md`, the
agents sub-scan produces `agentsCount = 0` and no error: only the legacy
`agent.md` is consulted; `AGENTS.md` is deliberately not counted. -/
theorem collectAgentsMetrics_ignores_AGENTS (cfg : ClawConfig) (fs : WorkspaceFs)
    (lines : List String)
    (hA : fs.readFile (joinPath cfg.dir "AGENTS.md") = .ok lines)
    (ha : fs.readFile (joinPath cfg.dir "agent.md") = .notFound) :
    collectAgentsMetrics cfg fs = (0, false) := by
  simp [collectAgentsMetrics, countMarkdownSections, ha]

/-- C2 witness: the amended statement at the concrete workspace of the
scenario. -/
theorem collectAgentsMetrics_ignores_AGENTS_witness :
    collectAgentsMetrics cfgW fsAgentsOnly = (0, false) :=
  collectAgentsMetrics_ignores_AGENTS cfgW fsAgentsOnly ["## alpha", "## beta"] rfl rfl

/-- The historical direct-collect revision did count `AGENTS.md`: on the
same workspace it reports 2 agents, which is what the spec's scenario
describes. -/
theorem collectAgentsMetricsLegacy_counts_AGENTS :
    (collectAgentsMetricsLegacy cfgW fsAgentsOnly).1 = 2 := by decide

/-- C1: in every scan cycle, the published snapshot's `scrapeSuccess` is
0 exactly when at least one of the six sub-scans errored, and 1 exactly
when all six returned without error. -/
theorem scrapeSuccess_zero_iff_subscan_error (cfg : ClawConfig) (fs : WorkspaceFs)
    (d : Rat) (s : CollectorState) :
    ((refreshSnapshot cfg fs d s).snapshot.scrapeSuccess = 0 ↔
      ((collectFileMetrics cfg fs).2 = true ∨ (collectWorkspaceFileMetrics cfg fs).2 = true
        ∨ (collectContextMetrics cfg fs).2 = true ∨ (collectMemoryMetrics cfg fs).2 = true
        ∨ (collectSkillsMetrics cfg fs).2 = true ∨ (collectAgentsMetrics cfg fs).2 = true))
    ∧ ((refreshSnapshot cfg fs d s).snapshot.scrapeSuccess = 1 ↔
      ¬((collectFileMetrics cfg fs).2 = true ∨ (collectWorkspaceFileMetrics cfg fs).2 = true
        ∨ (collectContextMetrics cfg fs).2 = true ∨ (collectMemoryMetrics cfg fs).2 = true
        ∨ (collectSkillsMetrics cfg fs).2 = true ∨ (collectAgentsMetrics cfg fs).2 = true)) := by
  simp only [refreshSnapshot]
  generalize (collectFileMetrics cfg fs).2 = b1
  generalize (collectWorkspaceFileMetrics cfg fs).2 = b2
  generalize (collectContextMetrics cfg fs).2 = b3
  generalize (collectMemoryMetrics cfg fs).2 = b4
  generalize (collectSkillsMetrics cfg fs).2 = b5
  generalize (collectAgentsMetrics cfg fs).2 = b6
  cases b1 <;> cases b2 <;> cases b3 <;> cases b4 <;> cases b5 <;> cases b6 <;> decide

/-- C6 (amended): two consecutive scan cycles against an unchanged
directory tree and unchanged environment publish snapshots equal in
every snapshot field; of the published state only
`lastScanDurationSeconds` and the monotonic `cumulativeScanErrors`
counter can differ. -/
theorem refreshSnapshot_deterministic_snapshot (cfg : ClawConfig) (fs : WorkspaceFs)
    (d1 d2 : Rat) (s : CollectorState) :
    (refreshSnapshot cfg fs d2 (refreshSnapshot cfg fs d1 s)).snapshot
      = (refreshSnapshot cfg fs d1 s).snapshot := rfl

/-- C6 counterexample: on an unchanged tree whose stats fail, the second
run's `cumulativeScanErrors` differs from the first's even with equal
scan durations, so the two published states are not equal in every field
except `lastScanDurationSeconds`. -/
theorem refreshSnapshot_scanErrors_differ :
    (refreshSnapshot cfgW fsStatErr 0
        (refreshSnapshot cfgW fsStatErr 0 initialCollectorState)).scanErrorsTotal
      ≠ (refreshSnapshot cfgW fsStatErr 0 initialCollectorState).scanErrorsTotal
    ∧ (refreshSnapshot cfgW fsStatErr 0 initialCollectorState).scanErrorsTotal = 2
    ∧ (refreshSnapshot cfgW fsStatErr 0
        (refreshSnapshot cfgW fsStatErr 0 initialCollectorState)).scanErrorsTotal = 4 := by
  decide

/-- File-loop step: a name whose lower-cased form was already reported
is skipped. -/
theorem fileLoop_step_skip {cfg : ClawConfig} {fs : WorkspaceFs} {f : String}
    {rest reported : List String} {acc : List fileStat}
    (h : reported.contains (strToLower f) = true) :
    fileLoop cfg fs (f :: rest) reported acc = fileLoop cfg fs rest reported acc := by
  simp only [fileLoop, h, if_true]

/-- File-loop step: a missing file is skipped. -/
theorem fileLoop_step_notFound {cfg : ClawConfig} {fs : WorkspaceFs} {f : String}
    {rest reported : List String} {acc : List fileStat}
    (h : reported.contains (strToLower f) = false)
    (hstat : fs.stat (joinPath cfg.dir f) = .notFound) :
    fileLoop cfg fs (f :: rest) reported acc = fileLoop cfg fs rest reported acc := by
  simp only [fileLoop, h, hstat, Bool.false_eq_true, if_false]

/-- File-loop step: a stat failure other than not-exist aborts. -/
theorem fileLoop_step_ioError {cfg : ClawConfig} {fs : WorkspaceFs} {f : String}
    {rest reported : List String} {acc : List fileStat}
    (h : reported.contains (strToLower f) = false)
    (hstat : fs.stat (joinPath cfg.dir f) = .ioError) :
    fileLoop cfg fs (f :: rest) reported acc = (acc, true) := by
  simp only [fileLoop, h, hstat, Bool.false_eq_true, if_false]

/-- File-loop step: a found file is recorded and its lower-cased name
marked reported. -/
theorem fileLoop_step_found {cfg : ClawConfig} {fs : WorkspaceFs} {f : String}
    {rest reported : List String} {acc : List fileStat} {s m : Int}
    (h : reported.contains (strToLower f) = false)
    (hstat : fs.stat (joinPath cfg.dir f) = .found s m) :
    fileLoop cfg fs (f :: rest) reported acc
      = fileLoop cfg fs rest (strToLower f :: reported) (acc ++ [⟨f, s, m⟩]) := by
  simp only [fileLoop, h, hstat, Bool.false_eq_true, if_false]

/-- Once `soul.md` is in the reported set, and every remaining name
lower-casing to `soul.md` is literally `soul.md`, the remaining file
loop records no further entry with that base name. -/
theorem fileLoop_no_more_soul (cfg : ClawConfig) (fs : WorkspaceFs) :
    ∀ (rest reported : List String) (acc : List fileStat),
      reported.contains "soul.md" = true →
      (∀ f ∈ rest, strToLower f = "soul.md" → f = "soul.md") →
      (fileLoop cfg fs rest reported acc).1.filter
          (fun st => strToLower st.name == "soul.md")
        = acc.filter (fun st => strToLower st.name == "soul.md") := by
  intro rest
  induction rest with
  | nil => intro reported acc _ _; simp [fileLoop]
  | cons f rest ih =>
    intro reported acc hrep hrest
    cases hf : reported.contains (strToLower f) with
    | true =>
      rw [fileLoop_step_skip hf]
      exact ih reported acc hrep (fun g hg hl => hrest g (List.mem_cons_of_mem f hg) hl)
    | false =>
      cases hstat : fs.stat (joinPath cfg.dir f) with
      | notFound =>
        rw [fileLoop_step_notFound hf hstat]
        exact ih reported acc hrep (fun g hg hl => hrest g (List.mem_cons_of_mem f hg) hl)
      | ioError => rw [fileLoop_step_ioError hf hstat]
      | found s m =>
        rw [fileLoop_step_found hf hstat]
        have hlow : strToLower f ≠ "soul.md" := by
          intro hl
          have hf2 := hf
          rw [hl, hrep] at hf2
          exact absurd hf2 (by decide)
        have hrep' : (strToLower f :: reported).contains "soul.md" = true := by
          simp only [List.contains_cons, hrep, Bool.or_true]
        have hmain := ih (strToLower f :: reported) (acc ++ [⟨f, s, m⟩]) hrep'
          (fun g hg hl => hrest g (List.mem_cons_of_mem f hg) hl)
        rw [hmain]
        have hpf : (fun st => strToLower st.name == "soul.md") (⟨f, s, m⟩ : fileStat) = false := by
          simpa using hlow
        simp [List.filter_append, List.filter_cons, hpf]

/-- C5: when the workspace contains both `SOUL.md` and `soul.md` (and
the earlier `AGENTS.md` stat does not abort the sub-scan), the file
facts contain exactly one entry whose base name is `soul.md`, recorded
under the canonical uppercase `SOUL.md` with its stats. -/
theorem fileFacts_dedup_soul (cfg : ClawConfig) (fs : WorkspaceFs) (sz mt sz' mt' : Int)
    (hA : fs.stat (joinPath cfg.dir "AGENTS.md") ≠ .ioError)
    (hS : fs.stat (joinPath cfg.dir "SOUL.md") = .found sz mt)
    (hs : fs.stat (joinPath cfg.dir "soul.md") = .found sz' mt') :
    (collectFileMetrics cfg fs).1.filter (fun st => strToLower st.name == "soul.md")
      = [⟨"SOUL.md", sz, mt⟩] := by
  have hrest : ∀ f ∈ ["TOOLS.md", "IDENTITY.md", "USER.md", "HEARTBEAT.md",
      "BOOTSTRAP.md", "BOOT.md", "MEMORY.md", "soul.md", "skill.md", "agent.md"],
      strToLower f = "soul.md" → f = "soul.md" := by decide
  unfold collectFileMetrics coreFiles
  cases hstA : fs.stat (joinPath cfg.dir "AGENTS.md") with
  | ioError => exact absurd hstA hA
  | notFound =>
    rw [fileLoop_step_notFound (by decide) hstA, fileLoop_step_found (by decide) hS,
      fileLoop_no_more_soul cfg fs _ _ _ (by decide) hrest]
    rfl
  | found a b =>
    rw [fileLoop_step_found (by decide) hstA, fileLoop_step_found (by decide) hS,
      fileLoop_no_more_soul cfg fs _ _ _ (by decide) hrest]
    rfl

/-- C5 witness: the dedup statement at a concrete workspace holding both
`SOUL.md` (size 36, mtime 100) and `soul.md` (size 10, mtime 200). -/
theorem fileFacts_dedup_soul_witness :
    (collectFileMetrics cfgW fsBothSouls).1.filter
        (fun st => strToLower st.name == "soul.md")
      = [⟨"SOUL.md", 36, 100⟩] :=
  fileFacts_dedup_soul cfgW fsBothSouls 36 100 10 200 (by decide) (by decide) (by decide)

/-- The error flag of the system-skills part does not depend on the
accumulated count. -/
theorem skillsSystemPart_snd_const (cfg : ClawConfig) (fs : WorkspaceFs) (a b : Nat) :
    (skillsSystemPart cfg fs a).2 = (skillsSystemPart cfg fs b).2 := by
  unfold skillsSystemPart
  cases h : resolveSystemSkillsDir cfg fs != "" with
  | false => simp [h]
  | true =>
    simp only [h, if_true]
    cases hr : fs.readDir (resolveSystemSkillsDir cfg fs) <;> simp [hr]

/-- The error flag of the user-skills part does not depend on the
accumulated count. -/
theorem skillsUserPart_snd_const (cfg : ClawConfig) (fs : WorkspaceFs) (a b : Nat) :
    (skillsUserPart cfg fs a).2 = (skillsUserPart cfg fs b).2 := by
  unfold skillsUserPart
  cases h : cfg.home != "" with
  | false =>
    simp only [h, Bool.false_eq_true, if_false]
    exact skillsSystemPart_snd_const cfg fs a b
  | true =>
    simp only [h, if_true]
    cases hr : fs.readDir (userSkillsDir cfg) with
    | ok es => simp only [hr]; exact skillsSystemPart_snd_const cfg fs _ _
    | notFound => simp only [hr]; exact skillsSystemPart_snd_const cfg fs _ _
    | ioError => simp [hr]

/-- Replacing the `readFile` view of the filesystem never changes
whether the skills sub-scan reports an error: the Markdown Section
Counter is the only reader, and all its errors are swallowed. -/
theorem setReadFile_skills_err (cfg : ClawConfig) (fs : WorkspaceFs)
    (g : String → ReadFileResult) :
    (collectSkillsMetrics cfg (setReadFile fs g)).2 = (collectSkillsMetrics cfg fs).2 := by
  have hUser : ∀ a, skillsUserPart cfg (setReadFile fs g) a = skillsUserPart cfg fs a :=
    fun _ => rfl
  unfold collectSkillsMetrics
  rw [show (setReadFile fs g).readDir (joinPath cfg.dir "skills")
      = fs.readDir (joinPath cfg.dir "skills") from rfl]
  cases hr : fs.readDir (joinPath cfg.dir "skills") with
  | ioError => rfl
  | ok es => simp only [hr]; rw [hUser]; exact skillsUserPart_snd_const cfg fs _ _
  | notFound => simp only [hr]; rw [hUser]; exact skillsUserPart_snd_const cfg fs _ _

/-- C4 (amended): the Markdown Section Counter fails `NotFound` exactly
when the path does not exist and `IOError` exactly on any other read
failure; but its callers treat both outcomes alike — the agents sub-scan
never reports an error at all, and whether the skills sub-scan reports
an error is independent of every file read, so an `IOError` from the
counter never degrades `scrapeSuccess`. -/
theorem counterErrors_not_scan_failures :
    (∀ (fs : WorkspaceFs) (p : String),
        (countMarkdownSections fs p = .error .notFound ↔ fs.readFile p = .notFound)
        ∧ (countMarkdownSections fs p = .error .ioError ↔ fs.readFile p = .ioError))
    ∧ (∀ (cfg : ClawConfig) (fs : WorkspaceFs), (collectAgentsMetrics cfg fs).2 = false)
    ∧ (∀ (cfg : ClawConfig) (fs : WorkspaceFs) (g : String → ReadFileResult),
        (collectSkillsMetrics cfg (setReadFile fs g)).2 = (collectSkillsMetrics cfg fs).2) := by
  refine ⟨?_, ?_, ?_⟩
  · intro fs p
    cases h : fs.readFile p <;> simp [countMarkdownSections, h]
  · intro cfg fs; rfl
  · intro cfg fs g; exact setReadFile_skills_err cfg fs g

/-- C4 counterexample: a workspace whose `skill.md` read fails with an
`IOError`; the counter reports the `IOError`, yet the skills sub-scan
reports no error and the cycle publishes `scrapeSuccess = 1`, contrary
to the claim that an `IOError` is treated as a scan failure. -/
theorem ioError_read_does_not_degrade_scrapeSuccess :
    fsReadErr.readFile (joinPath cfgW.dir "skill.md") = .ioError
    ∧ countMarkdownSections fsReadErr (joinPath cfgW.dir "skill.md") = .error .ioError
    ∧ (collectSkillsMetrics cfgW fsReadErr).2 = false
    ∧ (refreshSnapshot cfgW fsReadErr 0 initialCollectorState).snapshot.scrapeSuccess = 1 := by
  decide

/-- C7: inserting one line that fails to decode as JSON between two
`message` events does not change the Session Log Parser's final
accumulator (message count, token totals, cost, model and provider, and
thinking level are all fields of the accumulator). -/
theorem corrupt_line_between_messages_no_effect (pre suf : List LogLine)
    (e1 e2 : sessionEvent) (h1 : e1.type = "message") (h2 : e2.type = "message") :
    foldSession (pre ++ [.event e1, .corrupt, .event e2] ++ suf)
      = foldSession (pre ++ [.event e1, .event e2] ++ suf) := by
  unfold foldSession
  simp [List.foldl_append, processLine]

/-- C7 witness: the statement at a concrete three-line log whose middle
line is corrupt. -/
theorem corrupt_line_between_messages_no_effect_witness :
    foldSession [.event (msgEventUsage 10 5 0), .corrupt, .event (msgEventUsage 10 5 0)]
      = foldSession [.event (msgEventUsage 10 5 0), .event (msgEventUsage 10 5 0)] :=
  corrupt_line_between_messages_no_effect [] [] (msgEventUsage 10 5 0) (msgEventUsage 10 5 0)
    rfl rfl

/-- C8: the emitted total-token sample always equals the sum of the
accumulated input, output and cache-read token counts (cache counted
once); and on the spec's scenario log of three message events with usage
`{input:10, output:5, cacheRead:0}` the emitted samples are
`sessionMessages = 3`, `tokensInput = 30`, `tokensOutput = 15`,
`tokensTotal = 45`. -/
theorem tokensTotal_is_sum_of_counters :
    (∀ (agent sid : String) (lines : List LogLine),
        metricValue (emitSessionFileMetrics agent sid (foldSession lines))
            "openclaw_session_tokens_total"
          = some ((((foldSession lines).totalInputTokens
              + (foldSession lines).totalOutputTokens
              + (foldSession lines).totalCacheRead : Int) : Rat)))
    ∧ metricValue (emitSessionFileMetrics "main" "s1" (foldSession scenarioLog))
        "openclaw_session_messages_total" = some 3
    ∧ metricValue (emitSessionFileMetrics "main" "s1" (foldSession scenarioLog))
        "openclaw_session_tokens_input_total" = some 30
    ∧ metricValue (emitSessionFileMetrics "main" "s1" (foldSession scenarioLog))
        "openclaw_session_tokens_output_total" = some 15
    ∧ metricValue (emitSessionFileMetrics "main" "s1" (foldSession scenarioLog))
        "openclaw_session_tokens_total" = some 45 := by
  refine ⟨fun agent sid lines => rfl, ?_, ?_, ?_, ?_⟩ <;> decide

/-- The session-file parser never emits a scrape-success flag. -/
theorem emitSessionFileMetrics_no_flag (agent sid a : String) (acc : sessionAcc) :
    (emitSessionFileMetrics agent sid acc).countP (isScrapeFlagFor a) = 0 := by
  unfold emitSessionFileMetrics
  cases h : acc.currentModel != "" <;>
    simp only [h, if_true, Bool.false_eq_true, if_false] <;> rfl

/-- `collectSessionFileMetrics` never emits a scrape-success flag. -/
theorem collectSessionFileMetrics_no_flag (fs : SessionFs) (agent sid file a : String) :
    (collectSessionFileMetrics fs agent sid file).countP (isScrapeFlagFor a) = 0 := by
  unfold collectSessionFileMetrics
  cases h : fs.logFile file with
  | none => simp [h]
  | some lines => simp only [h]; exact emitSessionFileMetrics_no_flag agent sid a _

/-- Processing one registry entry never emits a scrape-success flag. -/
theorem emitRegistryEntry_no_flag (fs : SessionFs) (agent a : String)
    (p : String × SessionEntry) :
    (emitRegistryEntry fs agent p).countP (isScrapeFlagFor a) = 0 := by
  unfold emitRegistryEntry
  cases h : strStartsWith p.1 "agent:" && p.2.sessionId != "" with
  | false => simp [h]
  | true =>
    simp only [h, if_true]
    cases h2 : p.2.sessionFile != "" with
    | false => simp only [h2, Bool.false_eq_true, if_false]; rfl
    | true =>
      simp only [h2, if_true, List.countP_append]
      rw [collectSessionFileMetrics_no_flag]
      rfl

/-- Processing all registry entries emits no scrape-success flag. -/
theorem entriesFlat_no_flag (fs : SessionFs) (agent a : String) :
    ∀ entries : List (String × SessionEntry),
      ((entries.flatMap (emitRegistryEntry fs agent)).countP (isScrapeFlagFor a)) = 0 := by
  intro entries
  induction entries with
  | nil => rfl
  | cons p ps ih =>
    simp [List.flatMap_cons, List.countP_append, ih, emitRegistryEntry_no_flag]

/-- C3 (amended): for an agent whose registry file exists and is
readable, well-formed JSON, the walker emits exactly one scrape-success
flag (of value 1) labeled with that agent, after all its sessions; but
when the registry is unreadable or malformed, the agent is skipped
entirely and no scrape-success flag is emitted for it. -/
theorem agent_flag_only_on_readable_registry (fs : SessionFs) (agent : String) :
    ((fs.registry agent = .unreadable ∨ fs.registry agent = .malformed) →
        collectAgentSessions fs agent = [])
    ∧ (∀ entries, fs.registry agent = .ok entries →
        (collectAgentSessions fs agent).countP (isScrapeFlagFor agent) = 1) := by
  constructor
  · intro h
    cases h <;> simp [collectAgentSessions, *]
  · intro entries h
    simp only [collectAgentSessions, h]
    rw [List.countP_append, entriesFlat_no_flag]
    simp [List.countP_cons, isScrapeFlagFor]

/-- C3 witness: both halves of the amended statement at concrete
session filesystems. -/
theorem agent_flag_only_on_readable_registry_witness :
    collectAgentSessions sfsUnreadable "a" = []
    ∧ (collectAgentSessions sfsEmptyRegistry "a").countP (isScrapeFlagFor "a") = 1 :=
  ⟨(agent_flag_only_on_readable_registry sfsUnreadable "a").1 (Or.inl rfl),
   (agent_flag_only_on_readable_registry sfsEmptyRegistry "a").2 [] rfl⟩

/-- C3 counterexample: agent `a`'s registry file exists (its stat
succeeds) but reading it fails; the walker emits no metric at all for
the whole scrape — in particular not the one scrape-success flag the
claim requires for that agent. -/
theorem unreadable_registry_emits_no_flag :
    sfsUnreadable.sessionsStat "a" = true
    ∧ sfsUnreadable.registry "a" = .unreadable
    ∧ sessionCollect sfsUnreadable = []
    ∧ (sessionCollect sfsUnreadable).countP (isScrapeFlagFor "a") = 0 := by
  decide

/-- Every metric of the session-file parser carries the agent as its
first label. -/
theorem emitSessionFileMetrics_labels (agent sid : String) (acc : sessionAcc)
    (m : Metric) (hm : m ∈ emitSessionFileMetrics agent sid acc) :
    m.labels.head? = some agent := by
  unfold emitSessionFileMetrics at hm
  cases h : acc.currentModel != "" with
  | false =>
    simp only [h, Bool.false_eq_true, if_false, List.append_nil, List.mem_append,
      List.mem_cons, List.not_mem_nil, or_false, List.mem_singleton] at hm
    rcases hm with (rfl | rfl | rfl | rfl | rfl | rfl) | rfl <;> rfl
  | true =>
    simp only [h, if_true, List.mem_append, List.mem_cons, List.not_mem_nil,
      or_false, List.mem_singleton] at hm
    rcases hm with ((rfl | rfl | rfl | rfl | rfl | rfl) | rfl) | rfl <;> rfl

/-- Every metric of `collectSessionFileMetrics` carries the agent as its
first label. -/
theorem collectSessionFileMetrics_labels (fs : SessionFs) (agent sid file : String)
    (m : Metric) (hm : m ∈ collectSessionFileMetrics fs agent sid file) :
    m.labels.head? = some agent := by
  unfold collectSessionFileMetrics at hm
  cases h : fs.logFile file with
  | none => simp only [h] at hm; exact absurd hm (List.not_mem_nil m)
  | some lines => simp only [h] at hm; exact emitSessionFileMetrics_labels agent sid _ m hm

/-- Every metric of one registry entry carries the agent as its first
label. -/
theorem emitRegistryEntry_labels (fs : SessionFs) (agent : String)
    (p : String × SessionEntry) (m : Metric) (hm : m ∈ emitRegistryEntry fs agent p) :
    m.labels.head? = some agent := by
  unfold emitRegistryEntry at hm
  cases h : strStartsWith p.1 "agent:" && p.2.sessionId != "" with
  | false =>
    simp only [h, Bool.false_eq_true, if_false] at hm
    exact absurd hm (List.not_mem_nil m)
  | true =>
    simp only [h, if_true] at hm
    cases h2 : p.2.sessionFile != "" with
    | false =>
      simp only [h2, Bool.false_eq_true, if_false, List.append_nil, List.mem_cons,
        List.not_mem_nil, or_false, List.mem_singleton] at hm
      rcases hm with rfl | rfl <;> rfl
    | true =>
      simp only [h2, if_true, List.mem_append, List.mem_cons, List.not_mem_nil,
        or_false, List.mem_singleton] at hm
      rcases hm with (rfl | rfl) | hm
      · rfl
      · rfl
      · exact collectSessionFileMetrics_labels fs agent p.2.sessionId p.2.sessionFile m hm

/-- Every metric of `collectAgentSessions` carries the agent as its
first label. -/
theorem collectAgentSessions_labels (fs : SessionFs) (a : String) (m : Metric)
    (hm : m ∈ collectAgentSessions fs a) : m.labels.head? = some a := by
  unfold collectAgentSessions at hm
  cases hr : fs.registry a with
  | unreadable => simp only [hr] at hm; exact absurd hm (List.not_mem_nil m)
  | malformed => simp only [hr] at hm; exact absurd hm (List.not_mem_nil m)
  | ok entries =>
    simp only [hr, List.mem_append, List.mem_singleton] at hm
    rcases hm with hm | rfl
    · rcases List.mem_flatMap.mp hm with ⟨p, _, hmp⟩
      exact emitRegistryEntry_labels fs a p m hmp
    · rfl

/-- C10 (amended): when the agents directory cannot be read, the session
collector emits exactly one metric, the scrape-success flag 0 under the
literal label `unknown`; when the directory is readable, an
`unknown`-labeled metric can appear only if some agent directory is
itself named `unknown`. -/
theorem unknown_label_only_on_unreadable_agents_dir :
    (∀ fs : SessionFs, (fs.agentsDir = .notFound ∨ fs.agentsDir = .ioError) →
        sessionCollect fs = [⟨"openclaw_session_scrape_success", ["unknown"], 0⟩])
    ∧ (∀ (fs : SessionFs) (entries : List DirEntry), fs.agentsDir = .ok entries →
        (∀ e ∈ entries, e.name ≠ "unknown") →
        ∀ m ∈ sessionCollect fs, m.labels.head? ≠ some "unknown") := by
  constructor
  · intro fs h; cases h <;> simp [sessionCollect, *]
  · intro fs entries h hnames m hm
    simp only [sessionCollect, h] at hm
    rcases List.mem_flatMap.mp hm with ⟨e, he, hme⟩
    cases hcond : e.isDir && fs.sessionsStat e.name with
    | false =>
      simp only [hcond, Bool.false_eq_true, if_false] at hme
      exact absurd hme (List.not_mem_nil m)
    | true =>
      simp only [hcond, if_true] at hme
      rw [collectAgentSessions_labels fs e.name m hme]
      simpa using hnames e he

/-- C10 witness: both halves — the unreadable-directory branch, and the
no-unknown-label guarantee evaluated at a readable directory. -/
theorem unknown_label_only_on_unreadable_agents_dir_witness :
    sessionCollect sfsNoAgentsDir = [⟨"openclaw_session_scrape_success", ["unknown"], 0⟩]
    ∧ (⟨"openclaw_session_scrape_success", ["a"], 1⟩ : Metric).labels.head?
        ≠ some "unknown" :=
  ⟨unknown_label_only_on_unreadable_agents_dir.1 sfsNoAgentsDir (Or.inr rfl),
   unknown_label_only_on_unreadable_agents_dir.2 sfsEmptyRegistry
     [{ name := "a", isDir := true }] rfl (by decide)
     ⟨"openclaw_session_scrape_success", ["a"], 1⟩ (by decide)⟩

/-- C10 counterexample: the agents directory is readable and contains an
agent directory literally named `unknown`; the collector then emits a
metric under the agent label `unknown` (the scrape-success flag of that
agent), so the label is not reserved to the unreadable-directory case. -/
theorem unknown_label_with_readable_agents_dir :
    sfsNamedUnknown.agentsDir = .ok [{ name := "unknown", isDir := true }]
    ∧ sessionCollect sfsNamedUnknown
        = [⟨"openclaw_session_scrape_success", ["unknown"], 1⟩] := by
  decide

end OpenclawExporter
